import Mathlib

/-!
Shallow embedding of `train_models.py` (GG-CNN training driver).

The script is orchestration: it parses CLI flags, builds a train and a
validation dataset window, wraps them in data loaders, instantiates the
network and optimizer, then loops over epochs calling the external
`train` / `validate` routines, logging scalars and conditionally saving
checkpoints.  External collaborators (`get_dataset`, `get_network`,
`train`, `validate`) are modelled as oracles in an `Env`; every
observable side effect of the script is recorded as an `Event`, and any
exception is an explicit `PyErr` value that aborts the remaining trace.
-/

namespace TrainModels

/-- A Python exception: the script's own `ZeroDivisionError` (from
`correct/(correct+failed)` with a zero denominator) or an opaque
exception raised by the framework / the excluded modules. -/
inductive PyErr where
  | zeroDivisionError
  | external (tag : Nat)
deriving DecidableEq, Repr

/-- The dictionary returned by `train`: overall loss and named sub-losses. -/
structure TrainResults where
  loss : ℚ
  losses : List (String × ℚ)
deriving DecidableEq, Repr

/-- The dictionary returned by `validate`: correct / failed grasp counts,
overall loss and named sub-losses. -/
structure TestResults where
  correct : Int
  failed : Int
  loss : ℚ
  losses : List (String × ℚ)
deriving DecidableEq, Repr

/-- The argparse namespace built by `parse_args` (all flags of the parser). -/
structure Args where
  network : String
  dataset : String
  dataset_path : String
  use_depth : Int
  use_rgb : Int
  split : ℚ
  ds_rotate : ℚ
  num_workers : Nat
  batch_size : Nat
  epochs : Nat
  batches_per_epoch : Nat
  val_batches : Nat
  description : String
  vis : Bool
deriving DecidableEq, Repr

/-- The argparse defaults of `parse_args`. -/
def defaultArgs : Args where
  network := "ggcnn"
  dataset := ""
  dataset_path := ""
  use_depth := 1
  use_rgb := 0
  split := 9/10
  ds_rotate := 0
  num_workers := 8
  batch_size := 8
  epochs := 50
  batches_per_epoch := 1000
  val_batches := 250
  description := ""
  vis := false

/-- One observable step of the script, in program order. -/
inductive Event where
  | summaryWriterCtor (log_folder : String)
  | getDatasetCall (name : String)
  | datasetCtor (path : String) (start stop ds_rotate : ℚ)
      (include_depth include_rgb : Int)
  | dataLoaderCtor (batch_size : Nat) (shuffle : Bool) (num_workers : Nat)
  | getNetworkCall (name : String)
  | networkCtor (input_channels : Int)
  | optimizerCtor
  | archSummaryWrite (folder file : String)
  | trainCall (epoch : Nat) (batches_per_epoch : Nat) (vis : Bool)
  | tbScalar (tag : String) (value : ℚ) (epoch : Nat)
  | validateCall (epoch : Nat) (val_batches : Nat)
  | infoIou (epoch : Nat) (num den : Int) (iou : ℚ)
  | torchSave (epoch : Nat) (folder file : String)
deriving DecidableEq, Repr

/-- The external collaborators of the script, as oracles: each call either
returns a value or raises an exception. `trainFn` / `validateFn` are indexed
by the epoch at which they are called. -/
structure Env where
  get_dataset : String → Except PyErr Unit
  get_network : String → Except PyErr Unit
  trainFn : Nat → Except PyErr TrainResults
  validateFn : Nat → Except PyErr TestResults

/-- Zero-padded rendering of `%02d`. -/
def pad2 (n : Nat) : String :=
  if n < 10 then "0" ++ toString n else toString n

/-- Rendering of `%0.2f`: the value rounded to two decimals. -/
def fmt2 (q : ℚ) : String :=
  let m : Int := round (q * 100)
  let sign := if m < 0 then "-" else ""
  sign ++ toString (m.natAbs / 100) ++ "." ++ pad2 (m.natAbs % 100)

/-- The checkpoint base name `'epoch_%02d_iou_%0.2f' % (epoch, iou)`. -/
def ckptName (epoch : Nat) (iou : ℚ) : String :=
  "epoch_" ++ pad2 epoch ++ "_iou_" ++ fmt2 iou

/-- The condition of line 126: `iou > best_iou or epoch == 0 or (epoch % 10) == 0`. -/
def saveCond (epoch : Nat) (iou best_iou : ℚ) : Prop :=
  iou > best_iou ∨ epoch = 0 ∨ epoch % 10 = 0

instance (epoch : Nat) (iou best_iou : ℚ) : Decidable (saveCond epoch iou best_iou) := by
  unfold saveCond; infer_instance

/-- The IOU proxy `correct / (correct + failed)` computed by `run`. -/
def iouOf (vr : TestResults) : ℚ :=
  (vr.correct : ℚ) / ((vr.correct : ℚ) + (vr.failed : ℚ))

/-- The body of the epoch loop (lines 101-130): train, log the training
losses, validate, log the validation results (raising `ZeroDivisionError`
at the first division when `correct + failed = 0`), then conditionally
save the two checkpoint files and update `best_iou`.  Returns the trace
of the iteration and either the new `best_iou` or the exception. -/
def epochBody (env : Env) (args : Args) (save_folder : String) (epoch : Nat)
    (best_iou : ℚ) : List Event × Except PyErr ℚ :=
  match env.trainFn epoch with
  | .error e => ([.trainCall epoch args.batches_per_epoch args.vis], .error e)
  | .ok train_results =>
    let evs1 : List Event :=
      .trainCall epoch args.batches_per_epoch args.vis ::
      .tbScalar "loss/train_loss" train_results.loss epoch ::
      train_results.losses.map (fun nl => .tbScalar ("train_loss/" ++ nl.1) nl.2 epoch)
    match env.validateFn epoch with
    | .error e => (evs1 ++ [.validateCall epoch args.val_batches], .error e)
    | .ok test_results =>
      if test_results.correct + test_results.failed = 0 then
        (evs1 ++ [.validateCall epoch args.val_batches], .error .zeroDivisionError)
      else
        let evs2 : List Event := evs1 ++
          .validateCall epoch args.val_batches ::
          .infoIou epoch test_results.correct (test_results.correct + test_results.failed)
            ((test_results.correct : ℚ) /
              ((test_results.correct : ℚ) + (test_results.failed : ℚ))) ::
          .tbScalar "loss/IOU"
            ((test_results.correct : ℚ) /
              ((test_results.correct : ℚ) + (test_results.failed : ℚ))) epoch ::
          .tbScalar "loss/val_loss" test_results.loss epoch ::
          test_results.losses.map (fun nl => .tbScalar ("val_loss/" ++ nl.1) nl.2 epoch)
        let iou : ℚ := (test_results.correct : ℚ) /
          ((test_results.correct : ℚ) + (test_results.failed : ℚ))
        if saveCond epoch iou best_iou then
          (evs2 ++ [.torchSave epoch save_folder (ckptName epoch iou),
                    .torchSave epoch save_folder (ckptName epoch iou ++ "_statedict.pt")],
           .ok iou)
        else
          (evs2, .ok best_iou)

/-- The epoch loop `for epoch in range(args.epochs)`: runs `epochBody` from
`epoch` for `fuel` more iterations threading `best_iou`; an exception
aborts the loop and is returned. -/
def runEpochs (env : Env) (args : Args) (save_folder : String) :
    Nat → Nat → ℚ → List Event × Option PyErr
  | _, 0, _ => ([], none)
  | epoch, fuel+1, best_iou =>
    let body := epochBody env args save_folder epoch best_iou
    match body.2 with
    | .error e => (body.1, some e)
    | .ok b =>
      let rest := runEpochs env args save_folder (epoch+1) fuel b
      (body.1 ++ rest.1, rest.2)

/-- `run(args, save_folder, log_folder)` (lines 54-130): summary writer,
dataset lookup, train/val dataset and loader construction, network and
optimizer construction, architecture summary write, then the epoch loop
starting from `best_iou = 0.0`. -/
def run (env : Env) (args : Args) (save_folder log_folder : String) :
    List Event × Option PyErr :=
  match env.get_dataset args.dataset with
  | .error e => ([.summaryWriterCtor log_folder, .getDatasetCall args.dataset], some e)
  | .ok _ =>
    let evs1 : List Event :=
      [.summaryWriterCtor log_folder, .getDatasetCall args.dataset,
       .datasetCtor args.dataset_path 0 args.split args.ds_rotate args.use_depth args.use_rgb,
       .dataLoaderCtor args.batch_size true args.num_workers,
       .datasetCtor args.dataset_path args.split 1 args.ds_rotate args.use_depth args.use_rgb,
       .dataLoaderCtor 1 false args.num_workers]
    let input_channels : Int := 1 * args.use_depth + 3 * args.use_rgb
    match env.get_network args.network with
    | .error e => (evs1 ++ [.getNetworkCall args.network], some e)
    | .ok _ =>
      let evs2 := evs1 ++
        [.getNetworkCall args.network, .networkCtor input_channels, .optimizerCtor,
         .archSummaryWrite save_folder "arch.txt"]
      let loop := runEpochs env args save_folder 0 args.epochs 0
      (evs2 ++ loop.1, loop.2)

/-- `INPUT_DATA_PATH.joinpath(t)` with `Path.home()` abstracted as `home`. -/
def inputDataPathFor (home t : String) : String :=
  home ++ "/Project/gmdata/datasets/train_datasets/gg_data/small_data/" ++ t

/-- `OUT_PATH.joinpath(t)` with `Path.home()` abstracted as `home`. -/
def outFolderFor (home t : String) : String :=
  home ++ "/Project/gmdata/datasets/models/gg/small_data/" ++ t

/-- The `Args` value with which `main` calls `run` in the iteration for tag
`t`: `main` overwrites `network` and `epochs` before the loop and
`dataset`, `description` and `dataset_path` inside it (lines 141-149). -/
def mainArgsFor (parsed : Args) (home t : String) : Args :=
  { parsed with
    network := "ggcnn"
    epochs := 100
    dataset := if t = "cor" then "cornell" else "jacquard"
    description := "train " ++ t
    dataset_path := inputDataPathFor home t }

/-- The loop of `main` over the dataset tags: each iteration calls `run`
with the overridden arguments; an uncaught exception aborts the rest. -/
def mainLoop (env : Env) (parsed : Args) (home : String) :
    List String → List Event × Option PyErr
  | [] => ([], none)
  | t :: rest =>
    let r := run env (mainArgsFor parsed home t) (outFolderFor home t)
      (outFolderFor home t ++ "/logs")
    match r.2 with
    | some e => (r.1, some e)
    | none =>
      let r2 := mainLoop env parsed home rest
      (r.1 ++ r2.1, r2.2)

/-- `main()` (lines 139-156): parse, override, then run for the three tags
`gmd`, `cor`, `jaq` in order. -/
def mainRun (env : Env) (parsed : Args) (home : String) : List Event × Option PyErr :=
  mainLoop env parsed home ["gmd", "cor", "jaq"]

/-- The trace of one successful epoch-loop iteration, written out in the
order the spec describes: train, log the training losses, validate, log
the validation results, then (conditionally) the two checkpoint writes. -/
def specEpochTrace (args : Args) (save_folder : String) (epoch : Nat)
    (tr : TrainResults) (vr : TestResults) (best_iou : ℚ) : List Event :=
  .trainCall epoch args.batches_per_epoch args.vis ::
  .tbScalar "loss/train_loss" tr.loss epoch ::
  (tr.losses.map (fun nl => .tbScalar ("train_loss/" ++ nl.1) nl.2 epoch) ++
    .validateCall epoch args.val_batches ::
    .infoIou epoch vr.correct (vr.correct + vr.failed) (iouOf vr) ::
    .tbScalar "loss/IOU" (iouOf vr) epoch ::
    .tbScalar "loss/val_loss" vr.loss epoch ::
    (vr.losses.map (fun nl => .tbScalar ("val_loss/" ++ nl.1) nl.2 epoch) ++
      if saveCond epoch (iouOf vr) best_iou then
        [.torchSave epoch save_folder (ckptName epoch (iouOf vr)),
         .torchSave epoch save_folder (ckptName epoch (iouOf vr) ++ "_statedict.pt")]
      else []))

/-- The `best_iou` produced by one successful iteration from `best_iou = b`. -/
def nextBest (epoch : Nat) (vr : TestResults) (b : ℚ) : ℚ :=
  if saveCond epoch (iouOf vr) b then iouOf vr else b

/-- `best_iou` after the iteration at `epoch` (unchanged when the iteration
raised). -/
def bestStep (env : Env) (args : Args) (save_folder : String) (epoch : Nat)
    (b : ℚ) : ℚ :=
  match (epochBody env args save_folder epoch b).2 with
  | .ok b' => b'
  | .error _ => b

/-- `best_iou` after `j` iterations starting at `epoch = k0` from value `b`. -/
def bodyBest (env : Env) (args : Args) (save_folder : String) :
    ℚ → Nat → Nat → ℚ
  | b, _, 0 => b
  | b, k0, j+1 =>
    bodyBest env args save_folder (bestStep env args save_folder k0 b) (k0+1) j

/-- An environment in which every external call succeeds, with `train` and
`validate` results given per epoch. -/
def okEnv (tres : Nat → TrainResults) (vres : Nat → TestResults) : Env where
  get_dataset := fun _ => .ok ()
  get_network := fun _ => .ok ()
  trainFn := fun k => .ok (tres k)
  validateFn := fun k => .ok (vres k)

/-- The iteration at epoch `k` completes without an exception: `train` and
`validate` succeed and the validation counts do not divide by zero. -/
def epochOkAt (env : Env) (k : Nat) : Prop :=
  (∃ tr, env.trainFn k = .ok tr) ∧
  ∃ vr, env.validateFn k = .ok vr ∧ vr.correct + vr.failed ≠ 0

theorem epochBody_ok {env : Env} {args : Args} {save_folder : String}
    {epoch : Nat} {b : ℚ} {tr : TrainResults} {vr : TestResults}
    (ht : env.trainFn epoch = .ok tr) (hv : env.validateFn epoch = .ok vr)
    (hnz : vr.correct + vr.failed ≠ 0) :
    epochBody env args save_folder epoch b =
      (specEpochTrace args save_folder epoch tr vr b, .ok (nextBest epoch vr b)) := by
  unfold epochBody
  rw [ht, hv]
  simp only [hnz, if_false, specEpochTrace, nextBest, iouOf]
  split <;> simp

theorem epochBody_err_train {env : Env} {args : Args} {save_folder : String}
    {epoch : Nat} {b : ℚ} {e : PyErr} (ht : env.trainFn epoch = .error e) :
    epochBody env args save_folder epoch b =
      ([.trainCall epoch args.batches_per_epoch args.vis], .error e) := by
  unfold epochBody
  rw [ht]

theorem epochBody_err_validate {env : Env} {args : Args} {save_folder : String}
    {epoch : Nat} {b : ℚ} {tr : TrainResults} {e : PyErr}
    (ht : env.trainFn epoch = .ok tr) (hv : env.validateFn epoch = .error e) :
    epochBody env args save_folder epoch b =
      (.trainCall epoch args.batches_per_epoch args.vis ::
       .tbScalar "loss/train_loss" tr.loss epoch ::
       (tr.losses.map (fun nl => .tbScalar ("train_loss/" ++ nl.1) nl.2 epoch) ++
         [.validateCall epoch args.val_batches]), .error e) := by
  unfold epochBody
  rw [ht, hv]
  rfl

theorem epochBody_zero_div {env : Env} {args : Args} {save_folder : String}
    {epoch : Nat} {b : ℚ} {tr : TrainResults} {vr : TestResults}
    (ht : env.trainFn epoch = .ok tr) (hv : env.validateFn epoch = .ok vr)
    (hz : vr.correct + vr.failed = 0) :
    epochBody env args save_folder epoch b =
      (.trainCall epoch args.batches_per_epoch args.vis ::
       .tbScalar "loss/train_loss" tr.loss epoch ::
       (tr.losses.map (fun nl => .tbScalar ("train_loss/" ++ nl.1) nl.2 epoch) ++
         [.validateCall epoch args.val_batches]), .error .zeroDivisionError) := by
  unfold epochBody
  rw [ht, hv]
  simp [hz]

theorem runEpochs_zero (env : Env) (args : Args) (save_folder : String)
    (k : Nat) (b : ℚ) : runEpochs env args save_folder k 0 b = ([], none) := rfl

theorem runEpochs_succ_ok {env : Env} {args : Args} {save_folder : String}
    {k : Nat} {b b' : ℚ} (fuel : Nat)
    (h : (epochBody env args save_folder k b).2 = .ok b') :
    runEpochs env args save_folder k (fuel+1) b =
      ((epochBody env args save_folder k b).1 ++
        (runEpochs env args save_folder (k+1) fuel b').1,
       (runEpochs env args save_folder (k+1) fuel b').2) := by
  simp only [runEpochs]
  rw [h]

theorem runEpochs_succ_err {env : Env} {args : Args} {save_folder : String}
    {k : Nat} {b : ℚ} {e : PyErr} (fuel : Nat)
    (h : (epochBody env args save_folder k b).2 = .error e) :
    runEpochs env args save_folder k (fuel+1) b =
      ((epochBody env args save_folder k b).1, some e) := by
  simp only [runEpochs]
  rw [h]

/-- The trace of the epoch loop written as the sequential composition of
its iterations, threading `best_iou` through `bestStep`. -/
def specLoopTrace (env : Env) (args : Args) (save_folder : String) :
    ℚ → Nat → Nat → List Event
  | _, _, 0 => []
  | b, k0, fuel+1 =>
    (epochBody env args save_folder k0 b).1 ++
      specLoopTrace env args save_folder (bestStep env args save_folder k0 b) (k0+1) fuel

theorem epochBody_isOk {env : Env} {args : Args} {save_folder : String}
    {k : Nat} (h : epochOkAt env k) (b : ℚ) :
    (epochBody env args save_folder k b).2 = .ok (bestStep env args save_folder k b) := by
  obtain ⟨⟨tr, ht⟩, vr, hv, hnz⟩ := h
  rw [epochBody_ok ht hv hnz, bestStep, epochBody_ok ht hv hnz]

/-- When every iteration of the loop succeeds, `runEpochs` returns the
sequential trace of its iterations and no exception. -/
theorem runEpochs_join {env : Env} {args : Args} {save_folder : String} :
    ∀ (fuel k0 : Nat) (b : ℚ), (∀ j, j < fuel → epochOkAt env (k0 + j)) →
    runEpochs env args save_folder k0 fuel b =
      (specLoopTrace env args save_folder b k0 fuel, none)
  | 0, k0, b, _ => rfl
  | fuel+1, k0, b, h => by
    have h0 : epochOkAt env (k0 + 0) := h 0 (Nat.succ_pos _)
    rw [Nat.add_zero] at h0
    rw [runEpochs_succ_ok fuel (epochBody_isOk h0 b),
      runEpochs_join fuel (k0+1) (bestStep env args save_folder k0 b)
        (fun j hj => by
          have := h (j+1) (by omega)
          rwa [show k0 + (j+1) = k0 + 1 + j by omega] at this)]
    rfl

/-- When the first `k` iterations succeed and iteration `k0 + k` raises `e`
(whatever `best_iou` it is given), the loop stops there: its trace is the
first `k` iterations followed by the failing one, and the exception is
returned unchanged. -/
theorem runEpochs_err_full {env : Env} {args : Args} {save_folder : String}
    {e : PyErr} :
    ∀ (k fuel k0 : Nat) (b : ℚ), k < fuel →
    (∀ j, j < k → epochOkAt env (k0 + j)) →
    (∀ b', (epochBody env args save_folder (k0 + k) b').2 = .error e) →
    runEpochs env args save_folder k0 fuel b =
      (specLoopTrace env args save_folder b k0 k ++
        (epochBody env args save_folder (k0 + k)
          (bodyBest env args save_folder b k0 k)).1, some e)
  | 0, fuel, k0, b, hk, _, herr => by
    obtain ⟨f, rfl⟩ : ∃ f, fuel = f + 1 := ⟨fuel - 1, by omega⟩
    have h := herr b
    rw [Nat.add_zero] at h
    rw [runEpochs_succ_err f h]
    simp [specLoopTrace, bodyBest]
  | k+1, fuel, k0, b, hk, hok, herr => by
    obtain ⟨f, rfl⟩ : ∃ f, fuel = f + 1 := ⟨fuel - 1, by omega⟩
    have h0 : epochOkAt env (k0 + 0) := hok 0 (Nat.succ_pos _)
    rw [Nat.add_zero] at h0
    rw [runEpochs_succ_ok f (epochBody_isOk h0 b),
      runEpochs_err_full k f (k0+1) (bestStep env args save_folder k0 b)
        (by omega)
        (fun j hj => by
          have := hok (j+1) (by omega)
          rwa [show k0 + (j+1) = k0 + 1 + j by omega] at this)
        (fun b' => by
          have := herr b'
          rwa [show k0 + (k+1) = k0 + 1 + k by omega] at this)]
    simp only [specLoopTrace, bodyBest, List.append_assoc]
    rw [show k0 + (k+1) = k0 + 1 + k by omega]

/-- The epoch the event belongs to, for events emitted inside the loop. -/
def eventEpoch : Event → Option Nat
  | .trainCall k _ _ => some k
  | .tbScalar _ _ k => some k
  | .validateCall k _ => some k
  | .infoIou k _ _ _ => some k
  | .torchSave k _ _ => some k
  | _ => none

/-- Every event emitted by a loop iteration is tagged with that iteration's
epoch. -/
theorem eventEpoch_of_mem_epochBody {env : Env} {args : Args}
    {save_folder : String} {k : Nat} {b : ℚ} :
    ∀ x ∈ (epochBody env args save_folder k b).1, eventEpoch x = some k := by
  rcases henv : env.trainFn k with e | tr
  · rw [epochBody_err_train henv]
    simp [eventEpoch]
  · rcases hval : env.validateFn k with e | vr
    · rw [epochBody_err_validate henv hval]
      simp only [List.forall_mem_cons, List.forall_mem_append, List.forall_mem_map,
        List.forall_mem_singleton]
      simp [eventEpoch]
    · by_cases hz : vr.correct + vr.failed = 0
      · rw [epochBody_zero_div henv hval hz]
        simp only [List.forall_mem_cons, List.forall_mem_append, List.forall_mem_map,
          List.forall_mem_singleton]
        simp [eventEpoch]
      · rw [epochBody_ok henv hval hz]
        unfold specEpochTrace
        split <;>
        · simp only [List.forall_mem_cons, List.forall_mem_append, List.forall_mem_map,
            List.forall_mem_singleton]
          simp [eventEpoch]

/-- Every event in a `runEpochs` trace is epoch-tagged. -/
theorem eventEpoch_of_mem_runEpochs {env : Env} {args : Args}
    {save_folder : String} {x : Event} :
    ∀ (fuel k0 : Nat) (b : ℚ), x ∈ (runEpochs env args save_folder k0 fuel b).1 →
      ∃ j, eventEpoch x = some j
  | 0, k0, b, h => by simp [runEpochs] at h
  | fuel+1, k0, b, h => by
    simp only [runEpochs] at h
    rcases hb : (epochBody env args save_folder k0 b).2 with e | b' <;>
      rw [hb] at h <;> simp at h
    · exact ⟨k0, eventEpoch_of_mem_epochBody x h⟩
    · rcases h with h | h
      · exact ⟨k0, eventEpoch_of_mem_epochBody x h⟩
      · exact eventEpoch_of_mem_runEpochs fuel (k0+1) b' h

/-- Membership in the sequential loop trace, iteration by iteration. -/
theorem mem_specLoopTrace {env : Env} {args : Args} {save_folder : String}
    {x : Event} :
    ∀ (fuel k0 : Nat) (b : ℚ),
      x ∈ specLoopTrace env args save_folder b k0 fuel ↔
      ∃ j, j < fuel ∧
        x ∈ (epochBody env args save_folder (k0 + j)
          (bodyBest env args save_folder b k0 j)).1
  | 0, k0, b => by simp [specLoopTrace]
  | fuel+1, k0, b => by
    simp only [specLoopTrace, List.mem_append,
      mem_specLoopTrace fuel (k0+1) (bestStep env args save_folder k0 b)]
    constructor
    · rintro (h | ⟨j, hj, h⟩)
      · exact ⟨0, Nat.succ_pos _, by simpa [bodyBest] using h⟩
      · refine ⟨j+1, by omega, ?_⟩
        rw [show k0 + (j+1) = k0 + 1 + j by omega]
        simpa [bodyBest] using h
    · rintro ⟨j, hj, h⟩
      rcases j with _ | j
      · exact Or.inl (by simpa [bodyBest] using h)
      · refine Or.inr ⟨j, by omega, ?_⟩
        rw [show k0 + 1 + j = k0 + (j+1) by omega]
        simpa [bodyBest] using h

/-- The events of `run` before the epoch loop, in program order. -/
def runPrefix (args : Args) (save_folder log_folder : String) : List Event :=
  [.summaryWriterCtor log_folder, .getDatasetCall args.dataset,
   .datasetCtor args.dataset_path 0 args.split args.ds_rotate args.use_depth args.use_rgb,
   .dataLoaderCtor args.batch_size true args.num_workers,
   .datasetCtor args.dataset_path args.split 1 args.ds_rotate args.use_depth args.use_rgb,
   .dataLoaderCtor 1 false args.num_workers,
   .getNetworkCall args.network,
   .networkCtor (1 * args.use_depth + 3 * args.use_rgb),
   .optimizerCtor,
   .archSummaryWrite save_folder "arch.txt"]

theorem run_reaches_loop {env : Env} {args : Args} {save_folder log_folder : String}
    (hgd : env.get_dataset args.dataset = .ok ())
    (hgn : env.get_network args.network = .ok ()) :
    run env args save_folder log_folder =
      (runPrefix args save_folder log_folder ++
        (runEpochs env args save_folder 0 args.epochs 0).1,
       (runEpochs env args save_folder 0 args.epochs 0).2) := by
  unfold run
  rw [hgd, hgn]
  rfl

theorem run_err_get_dataset {env : Env} {args : Args}
    {save_folder log_folder : String} {e : PyErr}
    (hgd : env.get_dataset args.dataset = .error e) :
    run env args save_folder log_folder =
      ([.summaryWriterCtor log_folder, .getDatasetCall args.dataset], some e) := by
  unfold run
  rw [hgd]

theorem run_err_get_network {env : Env} {args : Args}
    {save_folder log_folder : String} {e : PyErr}
    (hgd : env.get_dataset args.dataset = .ok ())
    (hgn : env.get_network args.network = .error e) :
    run env args save_folder log_folder =
      ([.summaryWriterCtor log_folder, .getDatasetCall args.dataset,
        .datasetCtor args.dataset_path 0 args.split args.ds_rotate args.use_depth args.use_rgb,
        .dataLoaderCtor args.batch_size true args.num_workers,
        .datasetCtor args.dataset_path args.split 1 args.ds_rotate args.use_depth args.use_rgb,
        .dataLoaderCtor 1 false args.num_workers,
        .getNetworkCall args.network], some e) := by
  unfold run
  rw [hgd, hgn]
  rfl

theorem okEnv_epochOkAt {tres : Nat → TrainResults} {vres : Nat → TestResults}
    {k : Nat} (hnz : (vres k).correct + (vres k).failed ≠ 0) :
    epochOkAt (okEnv tres vres) k :=
  ⟨⟨tres k, rfl⟩, vres k, rfl, hnz⟩

/-- A successful loop iteration contains a checkpoint write into
`save_folder` exactly when the save condition of line 126 holds. -/
theorem torchSave_mem_epochBody_iff {env : Env} {args : Args}
    {save_folder : String} {k : Nat} {b : ℚ} {tr : TrainResults} {vr : TestResults}
    (ht : env.trainFn k = .ok tr) (hv : env.validateFn k = .ok vr)
    (hnz : vr.correct + vr.failed ≠ 0) :
    (∃ f, Event.torchSave k save_folder f ∈ (epochBody env args save_folder k b).1) ↔
      saveCond k (iouOf vr) b := by
  rw [epochBody_ok ht hv hnz]
  unfold specEpochTrace
  by_cases hc : saveCond k (iouOf vr) b
  · simp only [if_pos hc]
    refine ⟨fun _ => hc, fun _ => ⟨ckptName k (iouOf vr), ?_⟩⟩
    simp
  · simp only [if_neg hc]
    refine ⟨?_, fun h => absurd h hc⟩
    rintro ⟨f, hf⟩
    simp at hf

/-- Claim C1: in `run`, after each epoch's validation, the current model is
persisted if and only if the epoch's IOU is strictly greater than the
running best, or the epoch index is 0, or the epoch index is divisible
by 10. -/
theorem checkpoint_saved_iff {tres : Nat → TrainResults} {vres : Nat → TestResults}
    {args : Args} {save_folder log_folder : String}
    (hnz : ∀ k, k < args.epochs → (vres k).correct + (vres k).failed ≠ 0)
    (k : Nat) (hk : k < args.epochs) :
    (∃ f, Event.torchSave k save_folder f ∈
        (run (okEnv tres vres) args save_folder log_folder).1) ↔
      (iouOf (vres k) > bodyBest (okEnv tres vres) args save_folder 0 0 k ∨
        k = 0 ∨ k % 10 = 0) := by
  have hok : ∀ j, j < args.epochs → epochOkAt (okEnv tres vres) (0 + j) := by
    intro j hj
    rw [Nat.zero_add]
    exact okEnv_epochOkAt (hnz j hj)
  rw [run_reaches_loop rfl rfl, runEpochs_join args.epochs 0 0 hok]
  constructor
  · rintro ⟨f, hf⟩
    rw [List.mem_append] at hf
    rcases hf with hf | hf
    · simp [runPrefix] at hf
    · rw [mem_specLoopTrace] at hf
      obtain ⟨j, hj, hmem⟩ := hf
      have htag := eventEpoch_of_mem_epochBody _ hmem
      have hkj : k = j := by simpa [eventEpoch] using htag
      subst hkj
      rw [Nat.zero_add] at hmem
      exact (@torchSave_mem_epochBody_iff (okEnv tres vres) args save_folder k
        (bodyBest (okEnv tres vres) args save_folder 0 0 k) (tres k) (vres k)
        rfl rfl (hnz k hj)).mp ⟨f, hmem⟩
  · intro hc
    obtain ⟨f, hf⟩ :=
      (@torchSave_mem_epochBody_iff (okEnv tres vres) args save_folder k
        (bodyBest (okEnv tres vres) args save_folder 0 0 k) (tres k) (vres k)
        rfl rfl (hnz k hk)).mpr hc
    refine ⟨f, List.mem_append_right _ ((mem_specLoopTrace args.epochs 0 0).mpr
      ⟨k, hk, ?_⟩)⟩
    rw [Nat.zero_add]
    exact hf

/-- Concrete instance of claim C1: at epoch 0 a checkpoint is always written. -/
theorem checkpoint_saved_iff_witness :
    ∃ f, Event.torchSave 0 "save" f ∈
      (run (okEnv (fun _ => ⟨0, []⟩) (fun _ => ⟨1, 1, 0, []⟩))
        { defaultArgs with epochs := 1 } "save" "log").1 :=
  (checkpoint_saved_iff (fun _ _ => by decide) 0 (by decide)).mpr
    (Or.inr (Or.inl rfl))

/-- Claim C2: for every epoch, the IOU value that is logged (both to the
info log and to the `loss/IOU` scalar), compared against the running best,
and used in the checkpoint filenames equals `correct / (correct + failed)`
from that epoch's `validate` results. -/
theorem iou_value_consistent {env : Env} {args : Args} {save_folder : String}
    {k : Nat} {b : ℚ} {tr : TrainResults} {vr : TestResults}
    (ht : env.trainFn k = .ok tr) (hv : env.validateFn k = .ok vr)
    (hnz : vr.correct + vr.failed ≠ 0) :
    Event.infoIou k vr.correct (vr.correct + vr.failed)
        ((vr.correct : ℚ) / ((vr.correct : ℚ) + (vr.failed : ℚ))) ∈
      (epochBody env args save_folder k b).1 ∧
    Event.tbScalar "loss/IOU" ((vr.correct : ℚ) / ((vr.correct : ℚ) + (vr.failed : ℚ))) k ∈
      (epochBody env args save_folder k b).1 ∧
    (∀ n d q, Event.infoIou k n d q ∈ (epochBody env args save_folder k b).1 →
      n = vr.correct ∧ d = vr.correct + vr.failed ∧
        q = (vr.correct : ℚ) / ((vr.correct : ℚ) + (vr.failed : ℚ))) ∧
    (∀ j fo f, Event.torchSave j fo f ∈ (epochBody env args save_folder k b).1 →
      f = ckptName k ((vr.correct : ℚ) / ((vr.correct : ℚ) + (vr.failed : ℚ))) ∨
      f = ckptName k ((vr.correct : ℚ) / ((vr.correct : ℚ) + (vr.failed : ℚ))) ++
        "_statedict.pt") ∧
    (epochBody env args save_folder k b).2 =
      .ok (if (vr.correct : ℚ) / ((vr.correct : ℚ) + (vr.failed : ℚ)) > b ∨
            k = 0 ∨ k % 10 = 0
           then (vr.correct : ℚ) / ((vr.correct : ℚ) + (vr.failed : ℚ)) else b) := by
  rw [epochBody_ok ht hv hnz]
  unfold specEpochTrace nextBest saveCond iouOf
  refine ⟨?_, ?_, ?_, ?_, ?_⟩
  · split <;> simp
  · split <;> simp
  · intro n d q h
    split at h <;> simp at h <;> exact ⟨h.1, h.2.1, h.2.2⟩
  · intro j fo f h
    split at h <;> simp at h
    rcases h with ⟨_, _, h⟩ | ⟨_, _, h⟩
    · exact Or.inl h
    · exact Or.inr h
  · rfl

/-- Concrete instance of claim C2: with one correct and one failed grasp the
logged IOU scalar is `1/(1+1)`. -/
theorem iou_value_consistent_witness :
    Event.tbScalar "loss/IOU"
        ((((1 : Int) : ℚ)) / (((1 : Int) : ℚ) + ((1 : Int) : ℚ))) 0 ∈
      (epochBody (okEnv (fun _ => ⟨0, []⟩) (fun _ => ⟨1, 1, 0, []⟩))
        defaultArgs "save" 0 0).1 :=
  (iou_value_consistent rfl rfl (by decide)).2.1

/-- The whole trace of `run`, written in the order the spec gives:
construction events first (train dataset, train loader, val dataset, val
loader, network, optimizer, architecture summary), then the sequential
epoch-loop trace. -/
def specRunTrace (env : Env) (args : Args) (save_folder log_folder : String) :
    List Event :=
  runPrefix args save_folder log_folder ++
    specLoopTrace env args save_folder 0 0 args.epochs

/-- Claim C4 as amended: `run` performs train dataset construction, train
loader wrapping, validation dataset construction, validation loader
wrapping, network instantiation, optimizer construction and the summary
write in that order, then an epoch loop whose every iteration is train,
training-loss logging, validate, validation logging, conditional
checkpoint, in that order (the loader wrappings and the training-loss
logs are interleaved, unlike the claim's strict ordering). -/
theorem run_steps_ordered {tres : Nat → TrainResults} {vres : Nat → TestResults}
    {args : Args} {save_folder log_folder : String}
    (hnz : ∀ k, k < args.epochs → (vres k).correct + (vres k).failed ≠ 0) :
    run (okEnv tres vres) args save_folder log_folder =
      (specRunTrace (okEnv tres vres) args save_folder log_folder, none) ∧
    ∀ k, k < args.epochs → ∀ b,
      (epochBody (okEnv tres vres) args save_folder k b).1 =
        specEpochTrace args save_folder k (tres k) (vres k) b := by
  constructor
  · rw [run_reaches_loop rfl rfl, runEpochs_join args.epochs 0 0
      (fun j hj => by rw [Nat.zero_add]; exact okEnv_epochOkAt (hnz j hj))]
    rfl
  · intro k hk b
    rw [epochBody_ok rfl rfl (hnz k hk)]

/-- Counterexample to claim C4 as stated: in a concrete one-epoch run, the
train data-loader wrapping (index 3) precedes the validation dataset
construction (index 4), and the training-loss log (index 11) precedes the
validation call (index 12) — so neither "dataset construction ×2, then
data-loader wrapping" nor "train, then validate, then logging" is the
order the code follows. -/
theorem run_order_counterexample :
    (run (okEnv (fun _ => ⟨0, []⟩) (fun _ => ⟨1, 1, 0, []⟩))
        { defaultArgs with epochs := 1 } "save" "log").1.get? 3 =
      some (.dataLoaderCtor 8 true 8) ∧
    (run (okEnv (fun _ => ⟨0, []⟩) (fun _ => ⟨1, 1, 0, []⟩))
        { defaultArgs with epochs := 1 } "save" "log").1.get? 4 =
      some (.datasetCtor "" (9/10) 1 0 1 0) ∧
    (run (okEnv (fun _ => ⟨0, []⟩) (fun _ => ⟨1, 1, 0, []⟩))
        { defaultArgs with epochs := 1 } "save" "log").1.get? 11 =
      some (.tbScalar "loss/train_loss" 0 0) ∧
    (run (okEnv (fun _ => ⟨0, []⟩) (fun _ => ⟨1, 1, 0, []⟩))
        { defaultArgs with epochs := 1 } "save" "log").1.get? 12 =
      some (.validateCall 0 250) := by
  have htr : (run (okEnv (fun _ => ⟨0, []⟩) (fun _ => ⟨1, 1, 0, []⟩))
      { defaultArgs with epochs := 1 } "save" "log").1 =
      runPrefix { defaultArgs with epochs := 1 } "save" "log" ++
        (specEpochTrace { defaultArgs with epochs := 1 } "save" 0
          ⟨0, []⟩ ⟨1, 1, 0, []⟩ 0 ++ []) := by
    rw [run_reaches_loop rfl rfl,
      show ({ defaultArgs with epochs := 1 } : Args).epochs = 1 from rfl,
      runEpochs_join 1 0 0
        (fun j hj => by rw [Nat.zero_add]; exact okEnv_epochOkAt (by decide))]
    simp only [specLoopTrace]
    rw [epochBody_ok rfl rfl (by decide)]
  rw [htr]
  exact ⟨rfl, rfl, rfl, rfl⟩

/-- Concrete instance of claim C4: a one-epoch run produces exactly the
ordered spec trace and no exception. -/
theorem run_steps_ordered_witness :
    run (okEnv (fun _ => ⟨0, []⟩) (fun _ => ⟨1, 1, 0, []⟩))
        { defaultArgs with epochs := 1 } "save" "log" =
      (specRunTrace (okEnv (fun _ => ⟨0, []⟩) (fun _ => ⟨1, 1, 0, []⟩))
        { defaultArgs with epochs := 1 } "save" "log", none) :=
  (run_steps_ordered (fun _ _ => by decide)).1

/-- Claim C5: the training dataset is constructed over the window from
fraction 0 to `split` and the validation dataset from `split` to 1, with
the same `ds_rotate`; no other dataset construction happens, and for
`0 ≤ split ≤ 1` the two windows cover the unit interval exactly. -/
theorem dataset_windows {env : Env} {args : Args} {save_folder log_folder : String}
    (hgd : env.get_dataset args.dataset = .ok ())
    (h0 : 0 ≤ args.split) (h1 : args.split ≤ 1) :
    Event.datasetCtor args.dataset_path 0 args.split args.ds_rotate
        args.use_depth args.use_rgb ∈ (run env args save_folder log_folder).1 ∧
    Event.datasetCtor args.dataset_path args.split 1 args.ds_rotate
        args.use_depth args.use_rgb ∈ (run env args save_folder log_folder).1 ∧
    (∀ p a c r d g, Event.datasetCtor p a c r d g ∈ (run env args save_folder log_folder).1 →
      ((a = 0 ∧ c = args.split) ∨ (a = args.split ∧ c = 1)) ∧ r = args.ds_rotate) ∧
    Set.Icc (0 : ℚ) args.split ∪ Set.Icc args.split 1 = Set.Icc 0 1 := by
  rcases hgn : env.get_network args.network with e | u
  · rw [run_err_get_network hgd hgn]
    refine ⟨by simp, by simp, ?_, Set.Icc_union_Icc_eq_Icc h0 h1⟩
    intro p a c r d g h
    simp at h
    rcases h with ⟨_, h2, h3, h4, _⟩ | ⟨_, h2, h3, h4, _⟩
    · exact ⟨Or.inl ⟨h2, h3⟩, h4⟩
    · exact ⟨Or.inr ⟨h2, h3⟩, h4⟩
  · obtain ⟨⟩ := u
    rw [run_reaches_loop hgd hgn]
    refine ⟨by simp [runPrefix], by simp [runPrefix], ?_,
      Set.Icc_union_Icc_eq_Icc h0 h1⟩
    intro p a c r d g h
    rw [List.mem_append] at h
    rcases h with h | h
    · simp [runPrefix] at h
      rcases h with ⟨_, h2, h3, h4, _⟩ | ⟨_, h2, h3, h4, _⟩
      · exact ⟨Or.inl ⟨h2, h3⟩, h4⟩
      · exact ⟨Or.inr ⟨h2, h3⟩, h4⟩
    · obtain ⟨j, hj⟩ := eventEpoch_of_mem_runEpochs args.epochs 0 0 h
      simp [eventEpoch] at hj

/-- Concrete instance of claim C5: with the default split, the training
window `0 .. 0.9` is constructed. -/
theorem dataset_windows_witness :
    Event.datasetCtor "" 0 (9/10) 0 1 0 ∈
      (run (okEnv (fun _ => ⟨0, []⟩) (fun _ => ⟨1, 1, 0, []⟩))
        defaultArgs "save" "log").1 :=
  (dataset_windows rfl (by norm_num [defaultArgs]) (by norm_num [defaultArgs])).1

/-- Claim C6: `run` writes `arch.txt` into the save folder, and every
checkpointed epoch writes both the full-model file `epoch_%02d_iou_%0.2f`
and the state-dict file `epoch_%02d_iou_%0.2f_statedict.pt` into the save
folder, named from that epoch's index and IOU. -/
theorem output_files {tres : Nat → TrainResults} {vres : Nat → TestResults}
    {args : Args} {save_folder log_folder : String}
    (hnz : ∀ k, k < args.epochs → (vres k).correct + (vres k).failed ≠ 0) :
    Event.archSummaryWrite save_folder "arch.txt" ∈
      (run (okEnv tres vres) args save_folder log_folder).1 ∧
    ∀ k, k < args.epochs →
      (iouOf (vres k) > bodyBest (okEnv tres vres) args save_folder 0 0 k ∨
        k = 0 ∨ k % 10 = 0) →
      Event.torchSave k save_folder (ckptName k (iouOf (vres k))) ∈
        (run (okEnv tres vres) args save_folder log_folder).1 ∧
      Event.torchSave k save_folder (ckptName k (iouOf (vres k)) ++ "_statedict.pt") ∈
        (run (okEnv tres vres) args save_folder log_folder).1 := by
  rw [run_reaches_loop rfl rfl, runEpochs_join args.epochs 0 0
    (fun j hj => by rw [Nat.zero_add]; exact okEnv_epochOkAt (hnz j hj))]
  constructor
  · simp [runPrefix]
  · intro k hk hcond
    have hmem : ∀ f, f = ckptName k (iouOf (vres k)) ∨
        f = ckptName k (iouOf (vres k)) ++ "_statedict.pt" →
        Event.torchSave k save_folder f ∈
          (runPrefix args save_folder log_folder ++
            specLoopTrace (okEnv tres vres) args save_folder 0 0 args.epochs) := by
      intro f hf
      refine List.mem_append_right _ ((mem_specLoopTrace args.epochs 0 0).mpr
        ⟨k, hk, ?_⟩)
      rw [Nat.zero_add, epochBody_ok rfl rfl (hnz k hk)]
      unfold specEpochTrace
      rw [if_pos (show saveCond k (iouOf (vres k))
        (bodyBest (okEnv tres vres) args save_folder 0 0 k) from hcond)]
      rcases hf with rfl | rfl <;> simp
    exact ⟨hmem _ (Or.inl rfl), hmem _ (Or.inr rfl)⟩

/-- Concrete instance of claim C6: the architecture summary is written. -/
theorem output_files_witness :
    Event.archSummaryWrite "save" "arch.txt" ∈
      (run (okEnv (fun _ => ⟨0, []⟩) (fun _ => ⟨1, 1, 0, []⟩))
        { defaultArgs with epochs := 1 } "save" "log").1 :=
  (output_files (fun _ _ => by decide)).1

/-- A parsed CLI namespace in which the user asked for a different network
and epoch count than `main` imposes. -/
def cexParsed : Args := { defaultArgs with network := "resnet", epochs := 7 }

/-- An environment whose `get_network` raises, so that the first `run` of
`main` stops right after the network lookup. -/
def envNetErr : Env where
  get_dataset := fun _ => .ok ()
  get_network := fun _ => .error (.external 0)
  trainFn := fun _ => .ok ⟨0, []⟩
  validateFn := fun _ => .ok ⟨1, 1, 0, []⟩

/-- Counterexample to claim C3: the CLI asked for network `resnet` (and 7
epochs), but the run started by `main` looks up network `ggcnn` — `main`
overrides the parsed `network`, `epochs`, `dataset`, `dataset_path` and
`description` before calling `run`. -/
theorem cli_flags_counterexample :
    cexParsed.network = "resnet" ∧ cexParsed.epochs = 7 ∧
    Event.getNetworkCall "ggcnn" ∈ (mainRun envNetErr cexParsed "/home/u").1 ∧
    (∀ s, Event.getNetworkCall s ∈ (mainRun envNetErr cexParsed "/home/u").1 →
      s = "ggcnn") ∧
    (mainArgsFor cexParsed "/home/u" "gmd").epochs = 100 := by
  have hrun := @run_err_get_network envNetErr (mainArgsFor cexParsed "/home/u" "gmd")
    (outFolderFor "/home/u" "gmd") (outFolderFor "/home/u" "gmd" ++ "/logs")
    (.external 0) rfl rfl
  refine ⟨rfl, rfl, ?_, ?_, rfl⟩
  · simp only [mainRun, mainLoop]
    rw [hrun]
    simp [mainArgsFor]
  · intro s h
    simp only [mainRun, mainLoop] at h
    rw [hrun] at h
    simp [mainArgsFor] at h
    exact h

/-- Claim C3 as amended: the CLI flags do determine the depth/RGB channel
selection, split fraction, rotation offset, worker count, batch size,
batch counts and visualization toggle used by `run`; but `main` overrides
the network name to `ggcnn`, the epoch count to 100, and the dataset
name, dataset path and description per loop iteration, so those are not
taken from the command line. -/
theorem cli_flags_pass_through (parsed : Args) (home t : String) :
    (mainArgsFor parsed home t).use_depth = parsed.use_depth ∧
    (mainArgsFor parsed home t).use_rgb = parsed.use_rgb ∧
    (mainArgsFor parsed home t).split = parsed.split ∧
    (mainArgsFor parsed home t).ds_rotate = parsed.ds_rotate ∧
    (mainArgsFor parsed home t).num_workers = parsed.num_workers ∧
    (mainArgsFor parsed home t).batch_size = parsed.batch_size ∧
    (mainArgsFor parsed home t).batches_per_epoch = parsed.batches_per_epoch ∧
    (mainArgsFor parsed home t).val_batches = parsed.val_batches ∧
    (mainArgsFor parsed home t).vis = parsed.vis ∧
    (mainArgsFor parsed home t).network = "ggcnn" ∧
    (mainArgsFor parsed home t).epochs = 100 ∧
    (mainArgsFor parsed home t).dataset = (if t = "cor" then "cornell" else "jacquard") ∧
    (mainArgsFor parsed home t).dataset_path = inputDataPathFor home t :=
  ⟨rfl, rfl, rfl, rfl, rfl, rfl, rfl, rfl, rfl, rfl, rfl, rfl, rfl⟩

/-- Claim C7: neither `run` nor `main` catches any exception: whichever
external call (`get_dataset`, `get_network`, `train`, `validate`) raises
first, `run` returns exactly that exception, and an exception from the
first `run` aborts `main` with the same exception. -/
theorem exceptions_propagate (env : Env) (args parsed : Args)
    (save_folder log_folder home : String) (e : PyErr) :
    (env.get_dataset args.dataset = .error e →
      (run env args save_folder log_folder).2 = some e) ∧
    (env.get_dataset args.dataset = .ok () → env.get_network args.network = .error e →
      (run env args save_folder log_folder).2 = some e) ∧
    (∀ k, k < args.epochs → env.get_dataset args.dataset = .ok () →
      env.get_network args.network = .ok () → (∀ j, j < k → epochOkAt env j) →
      env.trainFn k = .error e → (run env args save_folder log_folder).2 = some e) ∧
    (∀ k tr, k < args.epochs → env.get_dataset args.dataset = .ok () →
      env.get_network args.network = .ok () → (∀ j, j < k → epochOkAt env j) →
      env.trainFn k = .ok tr → env.validateFn k = .error e →
      (run env args save_folder log_folder).2 = some e) ∧
    ((run env (mainArgsFor parsed home "gmd") (outFolderFor home "gmd")
        (outFolderFor home "gmd" ++ "/logs")).2 = some e →
      (mainRun env parsed home).2 = some e) := by
  refine ⟨?_, ?_, ?_, ?_, ?_⟩
  · intro h
    rw [run_err_get_dataset h]
  · intro h1 h2
    rw [run_err_get_network h1 h2]
  · intro k hk h1 h2 hok ht
    rw [run_reaches_loop h1 h2, runEpochs_err_full k args.epochs 0 0 hk
      (fun j hj => by rw [Nat.zero_add]; exact hok j hj)
      (fun b' => by rw [Nat.zero_add, epochBody_err_train ht])]
  · intro k tr hk h1 h2 hok ht hv
    rw [run_reaches_loop h1 h2, runEpochs_err_full k args.epochs 0 0 hk
      (fun j hj => by rw [Nat.zero_add]; exact hok j hj)
      (fun b' => by rw [Nat.zero_add, epochBody_err_validate ht hv])]
  · intro h
    simp only [mainRun, mainLoop]
    rw [h]

/-- Validation results giving IOU 9/10 at epoch 0 and 1/2 afterwards: the
forced save at epoch 10 then lowers `best_iou`. -/
def vresDrop : Nat → TestResults := fun k =>
  if k = 0 then ⟨9, 1, 0, []⟩ else ⟨1, 1, 0, []⟩

/-- Training results used in the `vresDrop` run. -/
def tresZero : Nat → TrainResults := fun _ => ⟨0, []⟩

/-- The all-successful environment of the `vresDrop` run. -/
def envDrop : Env := okEnv tresZero vresDrop

theorem iouOf_vresDrop_zero : iouOf (vresDrop 0) = 9/10 := by
  norm_num [iouOf, vresDrop]

theorem iouOf_vresDrop_pos {k : Nat} (hk : k ≠ 0) : iouOf (vresDrop k) = 1/2 := by
  rw [vresDrop]
  rw [if_neg hk]
  norm_num [iouOf]

theorem bestStep_envDrop (k : Nat) (b : ℚ) :
    bestStep envDrop defaultArgs "save" k b = nextBest k (vresDrop k) b := by
  have hnz : (vresDrop k).correct + (vresDrop k).failed ≠ 0 := by
    unfold vresDrop
    split <;> decide
  unfold bestStep
  rw [epochBody_ok rfl rfl hnz]

theorem nextBest_vresDrop_zero : nextBest 0 (vresDrop 0) 0 = 9/10 := by
  rw [nextBest, if_pos (show saveCond 0 (iouOf (vresDrop 0)) 0 from
    Or.inr (Or.inl rfl))]
  exact iouOf_vresDrop_zero

theorem nextBest_vresDrop_mid {k : Nat} (h1 : k ≠ 0) (h2 : k % 10 ≠ 0) :
    nextBest k (vresDrop k) (9/10) = 9/10 := by
  rw [nextBest, if_neg]
  rintro (h | h | h)
  · rw [iouOf_vresDrop_pos h1] at h
    norm_num at h
  · exact h1 h
  · exact h2 h

theorem nextBest_vresDrop_ten : nextBest 10 (vresDrop 10) (9/10) = 1/2 := by
  rw [nextBest, if_pos (show saveCond 10 (iouOf (vresDrop 10)) (9/10) from
    Or.inr (Or.inr (by norm_num)))]
  exact iouOf_vresDrop_pos (by norm_num)

theorem bodyBest_envDrop_ten :
    bodyBest envDrop defaultArgs "save" 0 0 10 = 9/10 := by
  simp only [bodyBest, bestStep_envDrop]
  rw [nextBest_vresDrop_zero,
    nextBest_vresDrop_mid (by norm_num) (by norm_num),
    nextBest_vresDrop_mid (by norm_num) (by norm_num),
    nextBest_vresDrop_mid (by norm_num) (by norm_num),
    nextBest_vresDrop_mid (by norm_num) (by norm_num),
    nextBest_vresDrop_mid (by norm_num) (by norm_num),
    nextBest_vresDrop_mid (by norm_num) (by norm_num),
    nextBest_vresDrop_mid (by norm_num) (by norm_num),
    nextBest_vresDrop_mid (by norm_num) (by norm_num),
    nextBest_vresDrop_mid (by norm_num) (by norm_num)]

theorem bodyBest_envDrop_eleven :
    bodyBest envDrop defaultArgs "save" 0 0 11 = 1/2 := by
  simp only [bodyBest, bestStep_envDrop]
  rw [nextBest_vresDrop_zero,
    nextBest_vresDrop_mid (by norm_num) (by norm_num),
    nextBest_vresDrop_mid (by norm_num) (by norm_num),
    nextBest_vresDrop_mid (by norm_num) (by norm_num),
    nextBest_vresDrop_mid (by norm_num) (by norm_num),
    nextBest_vresDrop_mid (by norm_num) (by norm_num),
    nextBest_vresDrop_mid (by norm_num) (by norm_num),
    nextBest_vresDrop_mid (by norm_num) (by norm_num),
    nextBest_vresDrop_mid (by norm_num) (by norm_num),
    nextBest_vresDrop_mid (by norm_num) (by norm_num),
    nextBest_vresDrop_ten]

/-- Claim C8: whenever an epoch saves a checkpoint, `best_iou` becomes that
epoch's IOU — even on a forced save (epoch 0 or a multiple of 10) with a
lower IOU — and it is unchanged in epochs without a checkpoint;
consequently `best_iou` is not monotone: after epoch 10 of the `vresDrop`
run it is strictly below its value after epoch 9. -/
theorem best_iou_update_rule :
    (∀ (env : Env) (args : Args) (save_folder : String) (k : Nat) (b : ℚ)
      (tr : TrainResults) (vr : TestResults),
      env.trainFn k = .ok tr → env.validateFn k = .ok vr →
      vr.correct + vr.failed ≠ 0 →
      (epochBody env args save_folder k b).2 =
        .ok (if iouOf vr > b ∨ k = 0 ∨ k % 10 = 0 then iouOf vr else b)) ∧
    bodyBest envDrop defaultArgs "save" 0 0 11 <
      bodyBest envDrop defaultArgs "save" 0 0 10 := by
  constructor
  · intro env args save_folder k b tr vr ht hv hnz
    rw [epochBody_ok ht hv hnz]
    rfl
  · rw [bodyBest_envDrop_ten, bodyBest_envDrop_eleven]
    norm_num

/-- Claim C9: if `validate` returns `correct = 0` and `failed = 0` at some
epoch (all earlier epochs completing normally), `run` raises
`ZeroDivisionError` at the first division: the epoch's validation has
happened but no IOU is logged for it, the exception is the run's result,
and no later epoch starts. -/
theorem zero_counts_zero_division {env : Env} {args : Args}
    {save_folder log_folder : String} {k : Nat} {tr : TrainResults}
    {vr : TestResults}
    (hgd : env.get_dataset args.dataset = .ok ())
    (hgn : env.get_network args.network = .ok ())
    (hk : k < args.epochs)
    (hok : ∀ j, j < k → epochOkAt env j)
    (ht : env.trainFn k = .ok tr)
    (hv : env.validateFn k = .ok vr)
    (hc : vr.correct = 0) (hf : vr.failed = 0) :
    (run env args save_folder log_folder).2 = some PyErr.zeroDivisionError ∧
    Event.validateCall k args.val_batches ∈ (run env args save_folder log_folder).1 ∧
    (∀ n d q, Event.infoIou k n d q ∉ (run env args save_folder log_folder).1) ∧
    (∀ j bpe v, k < j →
      Event.trainCall j bpe v ∉ (run env args save_folder log_folder).1) := by
  have hz : vr.correct + vr.failed = 0 := by rw [hc, hf]; rfl
  have herr : ∀ b', (epochBody env args save_folder (0 + k) b').2 =
      .error PyErr.zeroDivisionError := by
    intro b'
    rw [Nat.zero_add, epochBody_zero_div ht hv hz]
  rw [run_reaches_loop hgd hgn, runEpochs_err_full k args.epochs 0 0 hk
    (fun j hj => by rw [Nat.zero_add]; exact hok j hj) herr]
  rw [Nat.zero_add] at herr ⊢
  rw [epochBody_zero_div ht hv hz]
  refine ⟨rfl, ?_, ?_, ?_⟩
  · simp
  · intro n d q h
    simp only [List.mem_append] at h
    rcases h with h | h | h
    · simp [runPrefix] at h
    · rw [mem_specLoopTrace] at h
      obtain ⟨j, hj, hmem⟩ := h
      have htag := eventEpoch_of_mem_epochBody _ hmem
      simp [eventEpoch] at htag
      omega
    · simp at h
  · intro j bpe v hkj h
    simp only [List.mem_append] at h
    rcases h with h | h | h
    · simp [runPrefix] at h
    · rw [mem_specLoopTrace] at h
      obtain ⟨j', hj', hmem⟩ := h
      have htag := eventEpoch_of_mem_epochBody _ hmem
      simp [eventEpoch] at htag
      omega
    · simp at h
      rcases h with ⟨h1, -, -⟩
      omega

/-- Concrete instance of claim C9: zero validation counts at epoch 0 abort
the run with `ZeroDivisionError`. -/
theorem zero_counts_zero_division_witness :
    (run (okEnv (fun _ => ⟨0, []⟩) (fun _ => ⟨0, 0, 0, []⟩))
      defaultArgs "save" "log").2 = some PyErr.zeroDivisionError :=
  (zero_counts_zero_division rfl rfl (by norm_num [defaultArgs])
    (fun j hj => absurd hj (Nat.not_lt_zero j)) rfl rfl rfl rfl).1

/-- Arguments with both input channels disabled. -/
def zeroChanArgs : Args := { defaultArgs with use_depth := 0, use_rgb := 0 }

/-- Claim C10: the network is always instantiated with
`1 * use_depth + 3 * use_rgb` input channels; in particular with
`--use-depth 0 --use-rgb 0` it is constructed with 0 channels and the run
proceeds with no validation rejecting the combination. -/
theorem input_channels_formula (env : Env) (args : Args)
    (save_folder log_folder : String) :
    (env.get_dataset args.dataset = .ok () → env.get_network args.network = .ok () →
      Event.networkCtor (1 * args.use_depth + 3 * args.use_rgb) ∈
        (run env args save_folder log_folder).1) ∧
    (Event.networkCtor 0 ∈
      (run (okEnv (fun _ => ⟨0, []⟩) (fun _ => ⟨1, 1, 0, []⟩))
        zeroChanArgs save_folder log_folder).1 ∧
     (run (okEnv (fun _ => ⟨0, []⟩) (fun _ => ⟨1, 1, 0, []⟩))
        zeroChanArgs save_folder log_folder).2 = none) := by
  constructor
  · intro hgd hgn
    rw [run_reaches_loop hgd hgn]
    simp [runPrefix]
  · rw [run_reaches_loop rfl rfl, runEpochs_join zeroChanArgs.epochs 0 0
      (fun j hj => by rw [Nat.zero_add]; exact okEnv_epochOkAt (by decide))]
    constructor
    · simp [runPrefix, zeroChanArgs, defaultArgs]
    · rfl

end TrainModels
